import Mathlib

/-!
Verification development for the Redis key-migration program
(src/migrate.py).  The two store connections are modelled as opaque
capability providers, following the programs use of the redis client:
every store call either returns a value or raises, modelled with
Except.  The migration run is embedded as a pure function from the two
store models to a run result holding the ordered trace of printed
events, the writes applied to the target, the accumulated large-key
list and the manifest produced by the large-key thread.
-/

namespace Migrate

/-- Key names, serialized values and error messages are modelled as
strings. -/
abbrev Key := String

abbrev Val := String

abbrev Err := String

/-- Model of the source store connection.  scan takes a cursor and a
count and returns the new cursor with a batch of keys; memory_usage
may return none (size unknown) or raise; dump, ttl and type may raise.
dbsize is the approximate key count used for the progress display. -/
structure SourceStore where
  scan : Nat → Nat → Nat × List Key
  memory_usage : Key → Except Err (Option Nat)
  dump : Key → Except Err Val
  ttl : Key → Except Err Int
  type : Key → Except Err String
  dbsize : Nat

/-- Model of the target store connection: restore_ok says whether the
target accepts the RESTORE command for a key (a rejection surfaces
when the pipeline is executed). -/
structure TargetStore where
  restore_ok : Key → Bool

/-- A RESTORE command queued on the target pipeline
(pipe.restore(name=key, ttl=ttl, value=dumped_value, replace=True),
line 87).  The replace flag is always True in the code, so the write
semantics below always overwrite. -/
structure Write where
  name : Key
  ttl : Int
  value : Val
deriving DecidableEq

/-- An entry of the large_keys list: the dict
(name plus size) appended at line 80. -/
structure DeferredEntry where
  name : Key
  size : Nat
deriving DecidableEq

/-- A line of the large-key manifest file, written at line 27:
name, data type, adjusted ttl in milliseconds, and size in bytes. -/
structure ManifestLine where
  name : Key
  dataType : String
  ttl : Int
  size : Nat
deriving DecidableEq

/-- The print statements of the program, in source order, plus the two
thread operations (start at line 99, join at line 102) as trace
markers.  Each constructor carries exactly the data the corresponding
print interpolates. -/
inductive Event where
  | connectedSource (host : String) (port : Nat)
  | connectedTarget (host : String) (port : Nat)
  | foundKeys (n : Nat)
  | errorMigrating (key : Key) (err : Err)
  | threadStart
  | migrationCompleted
  | processingLargeKeys
  | capturedLargeKey (key : Key) (size : Nat) (dataType : String)
  | errorProcessingLargeKey (key : Key) (err : Err)
  | largeKeyProcessingComplete (file : String)
  | threadJoin
  | redisError (err : Err)
deriving DecidableEq

/-- Outcome of the per-key body of the batch loop (lines 77 to 89):
the key is queued for transfer, appended to large_keys, or its
exception is caught and printed. -/
inductive KeyOutcome where
  | transferred (w : Write)
  | deferredKey (d : DeferredEntry)
  | failed (key : Key) (err : Err)
deriving DecidableEq

/-- The per-key body of the batch loop, lines 77 to 89.  The match
cascade mirrors the try block: the first store call that raises wins
and the exception is caught by the per-key handler.  memory_usage
returning none is turned into 0 by the `or 0` at line 78; a key whose
size exceeds size_limit is recorded in large_keys (lines 79 to 81);
otherwise dump and ttl are queried, the ttl is adjusted
(`0 if ttl == -1 else ttl * 1000`, line 86) and the RESTORE is queued
(line 87). -/
def processKey (src : SourceStore) (size_limit : Nat) (k : Key) : KeyOutcome :=
  match src.memory_usage k with
  | .error e => .failed k e
  | .ok sizeOpt =>
    let key_size := sizeOpt.getD 0
    if key_size > size_limit then
      .deferredKey { name := k, size := key_size }
    else
      match src.dump k with
      | .error e => .failed k e
      | .ok dumped_value =>
        match src.ttl k with
        | .error e => .failed k e
        | .ok t =>
          .transferred { name := k, ttl := if t = -1 then 0 else t * 1000,
                         value := dumped_value }

/-- Outcomes of one batch of keys, in enumeration order. -/
def keyOutcomes (src : SourceStore) (size_limit : Nat) (keys : List Key) :
    List KeyOutcome :=
  keys.map (processKey src size_limit)

/-- The RESTORE commands queued on the pipeline for one batch. -/
def batchWrites (src : SourceStore) (size_limit : Nat) (keys : List Key) :
    List Write :=
  (keyOutcomes src size_limit keys).filterMap fun o =>
    match o with
    | .transferred w => some w
    | _ => none

/-- The large_keys entries appended during one batch. -/
def batchDeferred (src : SourceStore) (size_limit : Nat) (keys : List Key) :
    List DeferredEntry :=
  (keyOutcomes src size_limit keys).filterMap fun o =>
    match o with
    | .deferredKey d => some d
    | _ => none

/-- The error prints emitted during one batch (line 89): one per key
whose exception was caught, carrying the key identity. -/
def batchEvents (src : SourceStore) (size_limit : Nat) (keys : List Key) :
    List Event :=
  (keyOutcomes src size_limit keys).filterMap fun o =>
    match o with
    | .failed k e => some (.errorMigrating k e)
    | _ => none

/-- Accumulated state of the scan loop: keys counted by the progress
bar, writes applied on the target, the large_keys list, the event
trace, and the pending exception of the outer handler when the
pipeline execute raised. -/
structure ScanState where
  scanned : Nat
  applied : List Write
  large_keys : List DeferredEntry
  events : List Event
  aborted : Option Err
deriving DecidableEq

/-- The while loop of lines 70 to 95, fuelled.  Each step scans
(line 71), breaks when the returned batch is empty (lines 72 to 73),
runs the per-key loop, and executes the pipeline (line 90).  The
pipeline uses MULTI/EXEC, so every accepted command of the batch is
applied and the first rejected command raises after execution; that
exception escapes the while loop to the outer handler, modelled by
setting aborted.  Otherwise the loop continues until the cursor
returned by scan is 0 (lines 94 to 95). -/
def scanLoop (src : SourceStore) (tgt : TargetStore)
    (size_limit batch_size : Nat) : Nat → Nat → ScanState → ScanState
  | 0, _, st => st
  | fuel + 1, cursor, st =>
    let step := src.scan cursor batch_size
    let keys := step.2
    if keys.isEmpty then st
    else
      let ws := batchWrites src size_limit keys
      let st1 : ScanState :=
        { scanned := st.scanned + keys.length
          applied := st.applied ++ ws.filter (fun w => tgt.restore_ok w.name)
          large_keys := st.large_keys ++ batchDeferred src size_limit keys
          events := st.events ++ batchEvents src size_limit keys
          aborted := st.aborted }
      match ws.find? (fun w => !(tgt.restore_ok w.name)) with
      | some w =>
        { st1 with aborted := some ("RESTORE failed for key " ++ w.name) }
      | none =>
        if step.1 = 0 then st1
        else scanLoop src tgt size_limit batch_size fuel step.1 st1

/-- Per-entry body of process_large_keys, lines 19 to 31: type, dump
and ttl are re-queried from the source, the ttl is adjusted exactly as
in the main loop (line 24), and the manifest line reuses the size
recorded in the entry (key_info at line 27).  A raised exception is
caught per entry and printed (line 31), producing no line.  Exactly
one print happens per entry. -/
def processEntry (src : SourceStore) (key_info : DeferredEntry) :
    Option ManifestLine × Event :=
  match src.type key_info.name with
  | .error e => (none, .errorProcessingLargeKey key_info.name e)
  | .ok data_type =>
    match src.dump key_info.name with
    | .error e => (none, .errorProcessingLargeKey key_info.name e)
    | .ok _ =>
      match src.ttl key_info.name with
      | .error e => (none, .errorProcessingLargeKey key_info.name e)
      | .ok t =>
        (some { name := key_info.name, dataType := data_type,
                ttl := if t = -1 then 0 else t * 1000, size := key_info.size },
         .capturedLargeKey key_info.name key_info.size data_type)

/-- The process_large_keys function (lines 7 to 32), run in the
large-key thread: it opens the manifest file fresh, iterates the
handed-off list, and returns the manifest lines together with its
prints. -/
def process_large_keys (src : SourceStore) (target_db_store : String)
    (large_keys : List DeferredEntry) : List ManifestLine × List Event :=
  (large_keys.filterMap (fun e => (processEntry src e).1),
   .processingLargeKeys ::
     (large_keys.map (fun e => (processEntry src e).2)
       ++ [.largeKeyProcessingComplete target_db_store]))

/-- Result of one whole run of migrate_redis_keys: the ordered event
trace, the writes applied on the target, the final large_keys list,
the manifest written by the thread (none when the run aborted before
starting the thread), the progress-bar count and whether the outer
exception handler took over. -/
structure RunResult where
  events : List Event
  applied : List Write
  large_keys : List DeferredEntry
  manifest : Option (List ManifestLine)
  scanned : Nat
  aborted : Bool
deriving DecidableEq

/-- The migrate_redis_keys function, lines 35 to 109.  Connection
parameters beyond host and port only establish the connections, which
are modelled as succeeding; the two connected prints and the dbsize
print precede the loop.  When the loop raises (pipeline execute
rejection) the outer handler prints the Redis error and the function
returns without ever starting the large-key thread.  Otherwise the
thread is started (line 99), the completion message is printed
(line 101), and the thread is joined (line 102).  The thread events
are placed at the join point, an admissible schedule of the fork/join
since nothing in the main thread depends on them. -/
def migrate_redis_keys (src : SourceStore) (tgt : TargetStore)
    (source_host : String) (source_port : Nat)
    (target_host : String) (target_port : Nat)
    (batch_size size_limit : Nat) (large_key_file : String)
    (fuel : Nat) : RunResult :=
  let st0 : ScanState :=
    { scanned := 0, applied := [], large_keys := []
      events := [.connectedSource source_host source_port,
                 .connectedTarget target_host target_port,
                 .foundKeys src.dbsize]
      aborted := none }
  let st := scanLoop src tgt size_limit batch_size fuel 0 st0
  match st.aborted with
  | some e =>
    { events := st.events ++ [.redisError e], applied := st.applied,
      large_keys := st.large_keys, manifest := none,
      scanned := st.scanned, aborted := true }
  | none =>
    let proc := process_large_keys src large_key_file st.large_keys
    { events := st.events ++ [.threadStart, .migrationCompleted]
                ++ proc.2 ++ [.threadJoin],
      applied := st.applied, large_keys := st.large_keys,
      manifest := some proc.1, scanned := st.scanned, aborted := false }

/-- Modelled from the spec: the keys the source itself would yield
when the enumerator is driven from the beginning sentinel until the
returned cursor equals the terminal sentinel 0 (section 4.1 of the
spec).  Used to compare the loop of the code against the enumeration
contract. -/
def scanKeysUntilZero (src : SourceStore) (batch_size : Nat) :
    Nat → Nat → List Key
  | 0, _ => []
  | fuel + 1, cursor =>
    let step := src.scan cursor batch_size
    if step.1 = 0 then step.2
    else step.2 ++ scanKeysUntilZero src batch_size fuel step.1

/-- Rendering of an event to the printed line, following the format
strings of the source; the two thread markers print nothing. -/
def render : Event → Option String
  | .connectedSource h p =>
    some ("Connected to source Redis at " ++ h ++ ":" ++ toString p)
  | .connectedTarget h p =>
    some ("Connected to target Redis at " ++ h ++ ":" ++ toString p)
  | .foundKeys n =>
    some ("Found approximately " ++ toString n ++ " keys to migrate.")
  | .errorMigrating k e =>
    some ("Error migrating key \x27" ++ k ++ "\x27: " ++ e)
  | .threadStart => none
  | .migrationCompleted => some "Key migration completed successfully!"
  | .processingLargeKeys => some "Processing large keys in a separate thread..."
  | .capturedLargeKey k sz ty =>
    some ("Captured large key: " ++ k ++ " (" ++ toString sz
          ++ " bytes, type: " ++ ty ++ ")")
  | .errorProcessingLargeKey k e =>
    some ("Error processing large key \x27" ++ k ++ "\x27: " ++ e)
  | .largeKeyProcessingComplete f =>
    some ("Large key processing complete. Details stored in: " ++ f)
  | .threadJoin => none
  | .redisError e => some ("Redis error: " ++ e)

/-- Substring test on character lists, used to check that no printed
line mentions a word. -/
def hasSub (pat : List Char) : List Char → Bool
  | [] => pat.isEmpty
  | c :: rest => pat.isPrefixOf (c :: rest) || hasSub pat rest

/-- Target database state: each key maps to its stored ttl and value,
or is absent. -/
def TargetState := Key → Option (Int × Val)

/-- Semantics of one RESTORE with replace=True (line 87): the key is
overwritten unconditionally. -/
def applyWrite (t : TargetState) (w : Write) : TargetState :=
  fun k => if k = w.name then some (w.ttl, w.value) else t k

/-- Applying a list of writes in order. -/
def applyWrites (t : TargetState) (ws : List Write) : TargetState :=
  ws.foldl applyWrite t

/-- Recognizer for the per-key error print of the main loop. -/
def isErrorMigrating : Event → Bool
  | .errorMigrating _ _ => true
  | _ => false

/-! Concrete store models used to evaluate the embedded program on the
scenarios named by the specification. -/

/-- Target that accepts every RESTORE. -/
def tgtAccept : TargetStore := { restore_ok := fun _ => true }

/-- Source for the scenario of section 8 of the spec: keys a (1 MB),
b (20 MB) and c (no ttl), enumerated in a single batch. -/
def srcScenario : SourceStore :=
  { scan := fun c _ => if c = 0 then (0, ["a", "b", "c"]) else (0, [])
    memory_usage := fun k =>
      if k = "a" then .ok (some 1048576)
      else if k = "b" then .ok (some 20971520)
      else if k = "c" then .ok (some 64)
      else .ok none
    dump := fun k => .ok ("payload-" ++ k)
    ttl := fun k => if k = "c" then .ok (-1) else .ok 30
    type := fun _ => .ok "string"
    dbsize := 3 }

/-- Source whose first scan step returns an empty batch with a nonzero
cursor and whose second step yields key k with the terminal cursor:
a legal behavior of the Redis SCAN command on a sparse table. -/
def srcSparse : SourceStore :=
  { scan := fun c _ =>
      if c = 0 then (7, []) else if c = 7 then (0, ["k"]) else (0, [])
    memory_usage := fun _ => .ok (some 10)
    dump := fun _ => .ok "v"
    ttl := fun _ => .ok (-1)
    type := fun _ => .ok "string"
    dbsize := 1 }

/-- Source with two one-key batches, k1 then k2. -/
def srcTwoBatches : SourceStore :=
  { scan := fun c _ =>
      if c = 0 then (5, ["k1"]) else if c = 5 then (0, ["k2"]) else (0, [])
    memory_usage := fun _ => .ok (some 10)
    dump := fun k => .ok ("v-" ++ k)
    ttl := fun _ => .ok 30
    type := fun _ => .ok "string"
    dbsize := 2 }

/-- Target that rejects the RESTORE of key k1 and accepts every other
key. -/
def tgtRejectK1 : TargetStore := { restore_ok := fun k => k != "k1" }

/-- Source with a single key whose memory_usage call raises. -/
def srcSizeErr : SourceStore :=
  { scan := fun c _ => if c = 0 then (0, ["k"]) else (0, [])
    memory_usage := fun _ => .error "timeout"
    dump := fun _ => .ok "v"
    ttl := fun _ => .ok 30
    type := fun _ => .ok "string"
    dbsize := 1 }

/-- Source as seen by the large-key thread after key k shrank: the
store now reports 999 bytes for k. -/
def srcSizeChanged : SourceStore :=
  { scan := fun _ _ => (0, [])
    memory_usage := fun _ => .ok (some 999)
    dump := fun _ => .ok "v"
    ttl := fun _ => .ok (-1)
    type := fun _ => .ok "string"
    dbsize := 0 }

/-- Source with one batch of three keys in which only the middle key
raises on its memory_usage call. -/
def srcOneBad : SourceStore :=
  { scan := fun c _ => if c = 0 then (0, ["g1", "bad", "g2"]) else (0, [])
    memory_usage := fun k => if k = "bad" then .error "boom" else .ok (some 10)
    dump := fun k => .ok ("v-" ++ k)
    ttl := fun _ => .ok (-1)
    type := fun _ => .ok "string"
    dbsize := 3 }

/-- Source reporting the lifetime -2 for its single key, as Redis does
when the key vanished before the ttl query. -/
def srcVanished : SourceStore :=
  { scan := fun c _ => if c = 0 then (0, ["gone"]) else (0, [])
    memory_usage := fun _ => .ok (some 10)
    dump := fun _ => .ok "v"
    ttl := fun _ => .ok (-2)
    type := fun _ => .ok "string"
    dbsize := 1 }

/-- Source whose type call raises for the key bad and answers hash for
every other key, used to exercise the large-key thread. -/
def srcManifest : SourceStore :=
  { scan := fun _ _ => (0, [])
    memory_usage := fun _ => .ok none
    dump := fun _ => .ok "v"
    ttl := fun _ => .ok 5
    type := fun k => if k = "bad" then .error "gone" else .ok "hash"
    dbsize := 0 }

/-- C5: the routing test at line 79 is a strict inequality, so a key whose
reported size is exactly size_limit is transferable and its RESTORE is
queued, while a key of size_limit plus one byte is appended to the deferred
list and not transferred. -/
theorem c5_size_boundary (size_limit : Nat) :
    (∀ (src : SourceStore) (k : Key) (v : Val) (t : Int),
        src.memory_usage k = .ok (some size_limit) →
        src.dump k = .ok v →
        src.ttl k = .ok t →
        processKey src size_limit k =
          .transferred { name := k, ttl := if t = -1 then 0 else t * 1000,
                         value := v })
    ∧ (∀ (src : SourceStore) (k : Key),
        src.memory_usage k = .ok (some (size_limit + 1)) →
        processKey src size_limit k =
          .deferredKey { name := k, size := size_limit + 1 }) := by
  constructor
  · intro src k v t hm hd ht
    simp [processKey, hm, hd, ht]
  · intro src k hm
    simp [processKey, hm]

/-- Source whose single key reports 101 bytes. -/
def srcBoundaryWitness : SourceStore :=
  { scan := fun c _ => if c = 0 then (0, ["big"]) else (0, [])
    memory_usage := fun _ => .ok (some 101)
    dump := fun _ => .ok "v"
    ttl := fun _ => .ok 9
    type := fun _ => .ok "string"
    dbsize := 1 }

/-- C5 witness: with size_limit 1048576 key a of srcScenario sits exactly on
the boundary and is queued for transfer; with size_limit 100 the 101-byte
key of srcBoundaryWitness is deferred. -/
theorem c5_size_boundary_witness :
    processKey srcScenario 1048576 "a" =
      .transferred { name := "a", ttl := 30 * 1000, value := "payload-a" }
    ∧ processKey srcBoundaryWitness 100 "big" =
      .deferredKey { name := "big", size := 101 } := by
  constructor
  · exact (c5_size_boundary 1048576).1 srcScenario "a" "payload-a" 30
      rfl rfl rfl
  · exact (c5_size_boundary 100).2 srcBoundaryWitness "big" rfl

/-- C6: for a transferable key, the no-expiration sentinel -1 reported by the
source becomes a ttl of 0, and a nonnegative remaining lifetime of t seconds
becomes t * 1000 milliseconds; the adjusted value is the ttl carried by the
queued RESTORE (lines 85 to 87). -/
theorem c6_ttl_normalization (src : SourceStore) (size_limit : Nat) (k : Key)
    (sz : Option Nat) (v : Val) (t : Int)
    (hm : src.memory_usage k = .ok sz) (hsz : sz.getD 0 ≤ size_limit)
    (hd : src.dump k = .ok v) (ht : src.ttl k = .ok t) :
    (t = -1 → processKey src size_limit k =
        .transferred { name := k, ttl := 0, value := v })
    ∧ (0 ≤ t → processKey src size_limit k =
        .transferred { name := k, ttl := t * 1000, value := v }) := by
  have hlt : ¬ (sz.getD 0 > size_limit) := by omega
  constructor
  · intro h1
    simp [processKey, hm, hd, ht, hlt, h1]
  · intro h0
    have hne : t ≠ -1 := by omega
    simp [processKey, hm, hd, ht, hlt, hne]

/-- C6 witness: key c of srcScenario has no expiration and is queued with
ttl 0; key a has 30 seconds left and is queued with ttl 30000. -/
theorem c6_ttl_normalization_witness :
    processKey srcScenario 10485760 "c" =
      .transferred { name := "c", ttl := 0, value := "payload-c" }
    ∧ processKey srcScenario 10485760 "a" =
      .transferred { name := "a", ttl := 30 * 1000, value := "payload-a" } := by
  constructor
  · exact (c6_ttl_normalization srcScenario 10485760 "c" (some 64) "payload-c"
      (-1) rfl (by decide) rfl rfl).1 rfl
  · exact (c6_ttl_normalization srcScenario 10485760 "a" (some 1048576)
      "payload-a" 30 rfl (by decide) rfl rfl).2 (by decide)

/-- C10: the ttl adjustment at lines 86 and 24 singles out only the sentinel
-1; a reported lifetime of -2 is multiplied by 1000, so the RESTORE of the
main loop and the manifest line of the large-key thread both carry -2000
rather than an error or a no-expiration marker. -/
theorem c10_negative_ttl_passthrough :
    (∀ (src : SourceStore) (size_limit : Nat) (k : Key) (sz : Option Nat)
        (v : Val),
        src.memory_usage k = .ok sz → sz.getD 0 ≤ size_limit →
        src.dump k = .ok v → src.ttl k = .ok (-2) →
        processKey src size_limit k =
          .transferred { name := k, ttl := -2000, value := v })
    ∧ (∀ (src : SourceStore) (ki : DeferredEntry) (ty : String) (v : Val),
        src.type ki.name = .ok ty → src.dump ki.name = .ok v →
        src.ttl ki.name = .ok (-2) →
        (processEntry src ki).1 =
          some { name := ki.name, dataType := ty, ttl := -2000,
                 size := ki.size }) := by
  constructor
  · intro src size_limit k sz v hm hsz hd ht
    have hlt : ¬ (sz.getD 0 > size_limit) := by omega
    have hne : (-2 : Int) ≠ -1 := by decide
    simp [processKey, hm, hd, ht, hlt, hne]
  · intro src ki ty v hty hd ht
    have hne : (-2 : Int) ≠ -1 := by decide
    simp [processEntry, hty, hd, ht, hne]

/-- C10 witness: the single key of srcVanished reports lifetime -2 and is
queued with ttl -2000; the same entry processed by the large-key thread
yields a manifest line with ttl -2000. -/
theorem c10_negative_ttl_passthrough_witness :
    processKey srcVanished 100 "gone" =
      .transferred { name := "gone", ttl := -2000, value := "v" }
    ∧ (processEntry srcVanished { name := "gone", size := 500 }).1 =
      some { name := "gone", dataType := "string", ttl := -2000,
             size := 500 } := by
  constructor
  · exact c10_negative_ttl_passthrough.1 srcVanished 100 "gone" (some 10) "v"
      rfl (by decide) rfl rfl
  · exact c10_negative_ttl_passthrough.2 srcVanished
      { name := "gone", size := 500 } "string" "v" rfl rfl rfl

/-- Helper: the last assignment a list of writes makes to a key. -/
def lastAssign : List Write → Key → Option (Int × Val)
  | [], _ => none
  | w :: ws, k =>
    match lastAssign ws k with
    | some p => some p
    | none => if k = w.name then some (w.ttl, w.value) else none

/-- Helper: applying a list of replace writes sets each key to its last
assignment and leaves other keys alone. -/
theorem applyWrites_apply (ws : List Write) (t : TargetState) (k : Key) :
    applyWrites t ws k =
      match lastAssign ws k with
      | some p => some p
      | none => t k := by
  induction ws generalizing t with
  | nil => rfl
  | cons w ws ih =>
    show applyWrites (applyWrite t w) ws k = _
    rw [ih]
    cases h : lastAssign ws k with
    | some p => simp [lastAssign, h]
    | none =>
      simp only [lastAssign, h, applyWrite]
      by_cases hk : k = w.name <;> simp [hk]

/-- Helper: applying the same list of replace writes twice is the same as
applying it once. -/
theorem applyWrites_idem (ws : List Write) (t : TargetState) :
    applyWrites (applyWrites t ws) ws = applyWrites t ws := by
  funext k
  simp only [applyWrites_apply]
  cases h : lastAssign ws k <;> simp

/-- C9: every RESTORE is queued with replace=True (line 87), modelled by
applyWrite overwriting unconditionally, so applying the writes of a run a
second time on top of the state left by the first run changes nothing:
migration over an unchanged source is idempotent at key granularity. -/
theorem c9_replace_makes_run_idempotent (src : SourceStore) (tgt : TargetStore)
    (source_host : String) (source_port : Nat) (target_host : String)
    (target_port : Nat) (batch_size size_limit : Nat) (large_key_file : String)
    (fuel : Nat) (t : TargetState) :
    applyWrites
        (applyWrites t
          (migrate_redis_keys src tgt source_host source_port target_host
            target_port batch_size size_limit large_key_file fuel).applied)
        (migrate_redis_keys src tgt source_host source_port target_host
          target_port batch_size size_limit large_key_file fuel).applied
      = applyWrites t
          (migrate_redis_keys src tgt source_host source_port target_host
            target_port batch_size size_limit large_key_file fuel).applied :=
  applyWrites_idem _ _

/-- C1 counterexample: on srcTwoBatches with a target that rejects the
RESTORE of k1, the pipeline execute at line 90 raises outside the per-key
try, the outer handler at line 106 takes over, and the run ends at once:
nothing is applied, the second batch holding k2 is never scanned, and the
large-key thread never starts, so a single write rejection aborts both the
batch and the run. -/
theorem c1_write_rejection_aborts_run :
    (migrate_redis_keys srcTwoBatches tgtRejectK1 "sh" 1 "th" 2 1000 10485760
        "large_keys.txt" 5).aborted = true
    ∧ (migrate_redis_keys srcTwoBatches tgtRejectK1 "sh" 1 "th" 2 1000
        10485760 "large_keys.txt" 5).applied = []
    ∧ (migrate_redis_keys srcTwoBatches tgtRejectK1 "sh" 1 "th" 2 1000
        10485760 "large_keys.txt" 5).manifest = none
    ∧ (migrate_redis_keys srcTwoBatches tgtRejectK1 "sh" 1 "th" 2 1000
        10485760 "large_keys.txt" 5).events =
      [.connectedSource "sh" 1, .connectedTarget "th" 2, .foundKeys 2,
       .redisError "RESTORE failed for key k1"] := by
  decide

/-- C2 (code bug): srcSparse would yield key k before its cursor returns
to 0, a legal SCAN behavior, but the break at lines 72 to 73 stops the loop
as soon as one batch is empty even though the cursor is 7, so the run
completes without ever enumerating or classifying k: no write, no deferred
entry, no failure print. -/
theorem c2_empty_batch_stops_enumeration :
    scanKeysUntilZero srcSparse 1000 10 0 = ["k"]
    ∧ (migrate_redis_keys srcSparse tgtAccept "sh" 1 "th" 2 1000 10485760
        "large_keys.txt" 5).applied = []
    ∧ (migrate_redis_keys srcSparse tgtAccept "sh" 1 "th" 2 1000 10485760
        "large_keys.txt" 5).large_keys = []
    ∧ (migrate_redis_keys srcSparse tgtAccept "sh" 1 "th" 2 1000 10485760
        "large_keys.txt" 5).aborted = false
    ∧ (migrate_redis_keys srcSparse tgtAccept "sh" 1 "th" 2 1000 10485760
        "large_keys.txt" 5).events =
      [.connectedSource "sh" 1, .connectedTarget "th" 2, .foundKeys 1,
       .threadStart, .migrationCompleted, .processingLargeKeys,
       .largeKeyProcessingComplete "large_keys.txt", .threadJoin] := by
  decide

/-- C4 counterexample: when the memory_usage call for the single key of
srcSizeErr raises, the per-key handler at line 88 catches it, prints the
error and moves on: the key is skipped, not transferred, although the run
itself continues to a normal completion. -/
theorem c4_size_query_error_skips_key :
    (migrate_redis_keys srcSizeErr tgtAccept "sh" 1 "th" 2 1000 10485760
        "large_keys.txt" 5).applied = []
    ∧ (migrate_redis_keys srcSizeErr tgtAccept "sh" 1 "th" 2 1000 10485760
        "large_keys.txt" 5).aborted = false
    ∧ (migrate_redis_keys srcSizeErr tgtAccept "sh" 1 "th" 2 1000 10485760
        "large_keys.txt" 5).events =
      [.connectedSource "sh" 1, .connectedTarget "th" 2, .foundKeys 1,
       .errorMigrating "k" "timeout", .threadStart, .migrationCompleted,
       .processingLargeKeys, .largeKeyProcessingComplete "large_keys.txt",
       .threadJoin] := by
  decide

/-- C8 counterexample: a deferred entry recorded with 100 bytes is written
to the manifest with 100 bytes even though the source reports 999 bytes at
processing time: line 27 reuses key_info, the size captured during the main
pass, instead of re-querying the size. -/
theorem c8_size_not_requeried :
    processEntry srcSizeChanged { name := "k", size := 100 } =
      (some { name := "k", dataType := "string", ttl := 0, size := 100 },
       .capturedLargeKey "k" 100 "string")
    ∧ srcSizeChanged.memory_usage "k" = .ok (some 999) := by
  exact ⟨by decide, rfl⟩

/-- C3 counterexample: on the scenario of the spec, two keys are applied and
one is deferred, but the complete printed output of the run is the fixed
list below: no line reports the scanned, transferred, deferred or failed
counts, and in particular no printed line even contains the word
transferred. -/
theorem c3_no_count_report :
    (migrate_redis_keys srcScenario tgtAccept "source-host" 6379 "target-host"
        6380 1000 10485760 "large_keys.txt" 5).events.filterMap render =
      ["Connected to source Redis at source-host:6379",
       "Connected to target Redis at target-host:6380",
       "Found approximately 3 keys to migrate.",
       "Key migration completed successfully!",
       "Processing large keys in a separate thread...",
       "Captured large key: b (20971520 bytes, type: string)",
       "Large key processing complete. Details stored in: large_keys.txt"]
    ∧ (migrate_redis_keys srcScenario tgtAccept "source-host" 6379
        "target-host" 6380 1000 10485760 "large_keys.txt" 5).applied.length = 2
    ∧ (migrate_redis_keys srcScenario tgtAccept "source-host" 6379
        "target-host" 6380 1000 10485760 "large_keys.txt" 5).large_keys =
      [{ name := "b", size := 20971520 }]
    ∧ (((migrate_redis_keys srcScenario tgtAccept "source-host" 6379
        "target-host" 6380 1000 10485760 "large_keys.txt" 5).events.filterMap
          render).all
        (fun s => !(hasSub "transferred".data s.data))) = true := by
  decide

/-- C7 counterexample: in the trace of the scenario run, the overall outcome
print at line 101 precedes both the completion of the large-key thread and
the join at line 102, so the coordinator reports the outcome without first
blocking on the processor. -/
theorem c7_outcome_reported_before_join :
    (migrate_redis_keys srcScenario tgtAccept "source-host" 6379 "target-host"
        6380 1000 10485760 "large_keys.txt" 5).events =
      [.connectedSource "source-host" 6379, .connectedTarget "target-host" 6380,
       .foundKeys 3, .threadStart, .migrationCompleted, .processingLargeKeys,
       .capturedLargeKey "b" 20971520 "string",
       .largeKeyProcessingComplete "large_keys.txt", .threadJoin]
    ∧ (migrate_redis_keys srcScenario tgtAccept "source-host" 6379
        "target-host" 6380 1000 10485760 "large_keys.txt" 5).events.indexOf
        Event.migrationCompleted <
      (migrate_redis_keys srcScenario tgtAccept "source-host" 6379
        "target-host" 6380 1000 10485760 "large_keys.txt" 5).events.indexOf
        (Event.largeKeyProcessingComplete "large_keys.txt")
    ∧ (migrate_redis_keys srcScenario tgtAccept "source-host" 6379
        "target-host" 6380 1000 10485760 "large_keys.txt" 5).events.indexOf
        Event.migrationCompleted <
      (migrate_redis_keys srcScenario tgtAccept "source-host" 6379
        "target-host" 6380 1000 10485760 "large_keys.txt" 5).events.indexOf
        Event.threadJoin := by
  decide

/-- C1 (amended): a key whose per-key body raises before the pipeline
execute (size query, dump or ttl) is caught by the handler at line 88,
printed with its identity, and is fully isolated: the writes and deferred
entries of the batch are exactly those of the remaining keys, and the error
print sits between the prints of the preceding and following keys. -/
theorem c1_caught_failure_is_isolated (src : SourceStore) (size_limit : Nat)
    (pre post : List Key) (k : Key) (e : Err)
    (h : processKey src size_limit k = .failed k e) :
    batchWrites src size_limit (pre ++ k :: post)
        = batchWrites src size_limit (pre ++ post)
    ∧ batchDeferred src size_limit (pre ++ k :: post)
        = batchDeferred src size_limit (pre ++ post)
    ∧ batchEvents src size_limit (pre ++ k :: post)
        = batchEvents src size_limit pre
          ++ Event.errorMigrating k e :: batchEvents src size_limit post := by
  refine ⟨?_, ?_, ?_⟩ <;>
    simp [batchWrites, batchDeferred, batchEvents, keyOutcomes, h]

/-- C1 witness: in the three-key batch of srcOneBad the middle key raises,
is printed, and leaves the writes of g1 and g2 untouched. -/
theorem c1_caught_failure_is_isolated_witness :
    processKey srcOneBad 100 "bad" = .failed "bad" "boom"
    ∧ (batchWrites srcOneBad 100 (["g1"] ++ "bad" :: ["g2"])
        = batchWrites srcOneBad 100 (["g1"] ++ ["g2"])
      ∧ batchDeferred srcOneBad 100 (["g1"] ++ "bad" :: ["g2"])
        = batchDeferred srcOneBad 100 (["g1"] ++ ["g2"])
      ∧ batchEvents srcOneBad 100 (["g1"] ++ "bad" :: ["g2"])
        = batchEvents srcOneBad 100 ["g1"]
          ++ Event.errorMigrating "bad" "boom"
            :: batchEvents srcOneBad 100 ["g2"]) :=
  ⟨by decide,
   c1_caught_failure_is_isolated srcOneBad 100 ["g1"] ["g2"] "bad" "boom"
     (by decide)⟩

/-- C4 (amended): a size query that answers none routes the key as size 0,
hence transferable, and its RESTORE is queued; a size query that raises is
caught per key and the key is marked failed and skipped, never queued. -/
theorem c4_size_unknown_vs_size_error :
    (∀ (src : SourceStore) (size_limit : Nat) (k : Key) (v : Val) (t : Int),
        src.memory_usage k = .ok none → src.dump k = .ok v →
        src.ttl k = .ok t →
        processKey src size_limit k =
          .transferred { name := k, ttl := if t = -1 then 0 else t * 1000,
                         value := v })
    ∧ (∀ (src : SourceStore) (size_limit : Nat) (k : Key) (e : Err),
        src.memory_usage k = .error e →
        processKey src size_limit k = .failed k e) := by
  constructor
  · intro src size_limit k v t hm hd ht
    simp [processKey, hm, hd, ht]
  · intro src size_limit k e hm
    simp [processKey, hm]

/-- C4 witness: key z of srcScenario has unknown size and is queued with
ttl 30000; the key of srcSizeErr raises on its size query and is marked
failed. -/
theorem c4_size_unknown_vs_size_error_witness :
    processKey srcScenario 10485760 "z" =
      .transferred { name := "z", ttl := 30 * 1000, value := "payload-z" }
    ∧ processKey srcSizeErr 10485760 "k" = .failed "k" "timeout" :=
  ⟨c4_size_unknown_vs_size_error.1 srcScenario 10485760 "z" "payload-z" 30
     rfl rfl rfl,
   c4_size_unknown_vs_size_error.2 srcSizeErr 10485760 "k" "timeout" rfl⟩

/-- C8 (amended): the large-key thread re-queries type, value and lifetime
per entry and writes a manifest line holding the name, the re-queried type,
the adjusted re-queried ttl, and the size recorded in the deferred entry;
the processing never consults memory_usage at all; a failing entry produces
only its error print and no line, leaving the lines of the remaining entries
unchanged. -/
theorem c8_manifest_line_contents (src : SourceStore) :
    (∀ (ki : DeferredEntry) (ty : String) (v : Val) (t : Int),
        src.type ki.name = .ok ty → src.dump ki.name = .ok v →
        src.ttl ki.name = .ok t →
        processEntry src ki =
          (some { name := ki.name, dataType := ty,
                  ttl := if t = -1 then 0 else t * 1000, size := ki.size },
           .capturedLargeKey ki.name ki.size ty))
    ∧ (∀ (f : Key → Except Err (Option Nat)) (ki : DeferredEntry),
        processEntry { src with memory_usage := f } ki = processEntry src ki)
    ∧ (∀ (file : String) (pre post : List DeferredEntry) (ki : DeferredEntry),
        (processEntry src ki).1 = none →
        (process_large_keys src file (pre ++ ki :: post)).1 =
          (process_large_keys src file (pre ++ post)).1) := by
  refine ⟨?_, ?_, ?_⟩
  · intro ki ty v t hty hd ht
    simp [processEntry, hty, hd, ht]
  · intro f ki
    rfl
  · intro file pre post ki h
    simp [process_large_keys, List.filterMap_append, h]

/-- C8 witness: on srcManifest the good entry yields a line with the
re-queried type hash and ttl 5000 but the recorded 7 bytes, the line is
unchanged when memory_usage is replaced, and the failing entry bad
contributes no line. -/
theorem c8_manifest_line_contents_witness :
    processEntry srcManifest { name := "good", size := 7 } =
      (some { name := "good", dataType := "hash", ttl := 5 * 1000, size := 7 },
       .capturedLargeKey "good" 7 "hash")
    ∧ processEntry { srcManifest with memory_usage := fun _ => .error "x" }
        { name := "good", size := 7 } =
      processEntry srcManifest { name := "good", size := 7 }
    ∧ (process_large_keys srcManifest "large_keys.txt"
        ([{ name := "good", size := 7 }] ++ { name := "bad", size := 9 }
          :: [])).1 =
      (process_large_keys srcManifest "large_keys.txt"
        ([{ name := "good", size := 7 }] ++ [])).1 :=
  ⟨(c8_manifest_line_contents srcManifest).1 { name := "good", size := 7 }
     "hash" "v" 5 rfl rfl rfl,
   (c8_manifest_line_contents srcManifest).2.1 (fun _ => .error "x")
     { name := "good", size := 7 },
   (c8_manifest_line_contents srcManifest).2.2 "large_keys.txt"
     [{ name := "good", size := 7 }] [] { name := "bad", size := 9 }
     (by decide)⟩

/-- C7 (amended): in a run that does not abort, the large-key thread is
started only after the scan loop has finished and consumes the final
deferred list, the join is the last event before the function returns, and
the manifest is the one the thread produced; the outcome print, however,
sits between the thread start and the join, not after the join. -/
theorem c7_fork_after_scan_join_before_return (src : SourceStore)
    (tgt : TargetStore) (source_host : String) (source_port : Nat)
    (target_host : String) (target_port : Nat) (batch_size size_limit : Nat)
    (large_key_file : String) (fuel : Nat)
    (h : (migrate_redis_keys src tgt source_host source_port target_host
            target_port batch_size size_limit large_key_file fuel).aborted
          = false) :
    ∃ pre,
      (migrate_redis_keys src tgt source_host source_port target_host
          target_port batch_size size_limit large_key_file fuel).events =
        pre ++ [Event.threadStart, Event.migrationCompleted]
          ++ (process_large_keys src large_key_file
                (migrate_redis_keys src tgt source_host source_port target_host
                  target_port batch_size size_limit large_key_file
                  fuel).large_keys).2
          ++ [Event.threadJoin]
      ∧ (migrate_redis_keys src tgt source_host source_port target_host
            target_port batch_size size_limit large_key_file fuel).manifest =
          some (process_large_keys src large_key_file
                (migrate_redis_keys src tgt source_host source_port target_host
                  target_port batch_size size_limit large_key_file
                  fuel).large_keys).1 := by
  unfold migrate_redis_keys at h ⊢
  cases hab : (scanLoop src tgt size_limit batch_size fuel 0
      { scanned := 0, applied := [], large_keys := []
        events := [.connectedSource source_host source_port,
                   .connectedTarget target_host target_port,
                   .foundKeys src.dbsize]
        aborted := none }).aborted with
  | some e => simp [hab] at h
  | none =>
    simp only [hab]
    exact ⟨_, rfl, trivial⟩

/-- C7 witness: the scenario run satisfies the fork/join shape. -/
theorem c7_fork_after_scan_join_before_return_witness :
    ∃ pre,
      (migrate_redis_keys srcScenario tgtAccept "source-host" 6379
          "target-host" 6380 1000 10485760 "large_keys.txt" 5).events =
        pre ++ [Event.threadStart, Event.migrationCompleted]
          ++ (process_large_keys srcScenario "large_keys.txt"
                (migrate_redis_keys srcScenario tgtAccept "source-host" 6379
                  "target-host" 6380 1000 10485760 "large_keys.txt"
                  5).large_keys).2
          ++ [Event.threadJoin]
      ∧ (migrate_redis_keys srcScenario tgtAccept "source-host" 6379
            "target-host" 6380 1000 10485760 "large_keys.txt" 5).manifest =
          some (process_large_keys srcScenario "large_keys.txt"
                (migrate_redis_keys srcScenario tgtAccept "source-host" 6379
                  "target-host" 6380 1000 10485760 "large_keys.txt"
                  5).large_keys).1 :=
  c7_fork_after_scan_join_before_return srcScenario tgtAccept "source-host"
    6379 "target-host" 6380 1000 10485760 "large_keys.txt" 5 (by decide)

/-- Helper: each key outcome feeds exactly one of the three collectors, so
their lengths sum to the number of outcomes. -/
theorem keyOutcomes_partition (outs : List KeyOutcome) :
    (outs.filterMap fun o =>
       match o with | .transferred w => some w | _ => none).length
    + (outs.filterMap fun o =>
       match o with | .deferredKey d => some d | _ => none).length
    + (outs.filterMap fun o =>
       match o with
       | .failed k e => some (Event.errorMigrating k e)
       | _ => none).length
    = outs.length := by
  induction outs with
  | nil => rfl
  | cons o rest ih => cases o <;> simp [List.filterMap_cons] <;> omega

/-- Helper: each key of a batch is queued, deferred or failed, exactly one
of the three. -/
theorem batch_partition (src : SourceStore) (size_limit : Nat)
    (keys : List Key) :
    (batchWrites src size_limit keys).length
    + (batchDeferred src size_limit keys).length
    + (batchEvents src size_limit keys).length = keys.length := by
  have h := keyOutcomes_partition (keyOutcomes src size_limit keys)
  simpa [batchWrites, batchDeferred, batchEvents, keyOutcomes] using h

/-- Helper: the batch events are exactly the per-key error prints. -/
theorem batchEvents_all_error (src : SourceStore) (size_limit : Nat)
    (keys : List Key) :
    (batchEvents src size_limit keys).filter isErrorMigrating
      = batchEvents src size_limit keys := by
  apply List.filter_eq_self.mpr
  intro e he
  simp only [batchEvents, List.mem_filterMap] at he
  obtain ⟨o, _, hoe⟩ := he
  cases o <;> simp_all [isErrorMigrating]
  subst hoe
  rfl

/-- Invariant of the scan loop: the progress count equals applied writes
plus deferred entries plus per-key error prints. -/
def countsOk (st : ScanState) : Prop :=
  st.scanned = st.applied.length + st.large_keys.length
    + (st.events.filter isErrorMigrating).length

/-- Helper: one non-aborting batch step preserves the count invariant. -/
theorem countsOk_step (src : SourceStore) (tgt : TargetStore)
    (size_limit : Nat) (st : ScanState) (keys : List Key)
    (h : countsOk st)
    (hf : (batchWrites src size_limit keys).find?
        (fun w => !(tgt.restore_ok w.name)) = none) :
    countsOk
      { scanned := st.scanned + keys.length
        applied := st.applied ++ (batchWrites src size_limit keys).filter
          (fun w => tgt.restore_ok w.name)
        large_keys := st.large_keys ++ batchDeferred src size_limit keys
        events := st.events ++ batchEvents src size_limit keys
        aborted := st.aborted } := by
  have hfilter : (batchWrites src size_limit keys).filter
      (fun w => tgt.restore_ok w.name) = batchWrites src size_limit keys := by
    apply List.filter_eq_self.mpr
    intro w hw
    have hw2 := List.find?_eq_none.mp hf w hw
    simpa using hw2
  have hpart := batch_partition src size_limit keys
  unfold countsOk at h ⊢
  simp only [hfilter, List.filter_append, batchEvents_all_error,
    List.length_append]
  omega

/-- Helper: a completed non-aborted scan loop preserves the count
invariant. -/
theorem scanLoop_partition (src : SourceStore) (tgt : TargetStore)
    (size_limit batch_size : Nat) :
    ∀ (fuel cursor : Nat) (st : ScanState), countsOk st →
      (scanLoop src tgt size_limit batch_size fuel cursor st).aborted = none →
      countsOk (scanLoop src tgt size_limit batch_size fuel cursor st) := by
  intro fuel
  induction fuel with
  | zero => intro cursor st h _; exact h
  | succ fuel ih =>
    intro cursor st h hab
    rw [scanLoop] at hab ⊢
    by_cases hk : (src.scan cursor batch_size).2.isEmpty
    · simpa [hk] using h
    · simp only [hk, if_neg, Bool.false_eq_true, not_false_eq_true, if_false]
        at hab ⊢
      cases hfind : (batchWrites src size_limit
          (src.scan cursor batch_size).2).find?
          (fun w => !(tgt.restore_ok w.name)) with
      | some w => simp [hfind] at hab
      | none =>
        simp only [hfind] at hab ⊢
        have hstep := countsOk_step src tgt size_limit st
          (src.scan cursor batch_size).2 h hfind
        by_cases hc : (src.scan cursor batch_size).1 = 0
        · simpa [hc] using hstep
        · simp only [hc, if_false] at hab ⊢
          exact ih (src.scan cursor batch_size).1 _ hstep hab

/-- Helper: the single print of the large-key thread for one entry is never
the per-key error print of the main loop. -/
theorem processEntry_event_not_migrating (src : SourceStore)
    (ki : DeferredEntry) :
    isErrorMigrating (processEntry src ki).2 = false := by
  unfold processEntry
  rcases h1 : src.type ki.name with e1 | ty
  · rfl
  · rcases h2 : src.dump ki.name with e2 | v
    · rfl
    · rcases h3 : src.ttl ki.name with e3 | t
      · rfl
      · rfl

/-- Helper: the prints of the large-key thread contain no per-key error
print of the main loop. -/
theorem process_large_keys_events_filter (src : SourceStore) (file : String)
    (lk : List DeferredEntry) :
    (process_large_keys src file lk).2.filter isErrorMigrating = [] := by
  simp only [process_large_keys, List.filter_cons, List.filter_append]
  have hmap : (lk.map (fun e => (processEntry src e).2)).filter
      isErrorMigrating = [] := by
    rw [List.filter_eq_nil_iff]
    intro e he
    simp only [List.mem_map] at he
    obtain ⟨ki, _, hki⟩ := he
    rw [← hki]
    simp [processEntry_event_not_migrating]
  simp [hmap, isErrorMigrating]

/-- C3 (amended): a run that reaches its end prints only the fixed
completion messages and reports no counts, but the count invariant does
hold: every scanned key ends in exactly one of the three classes, so the
progress total equals applied writes plus deferred entries plus per-key
failure prints. -/
theorem c3_every_key_classified (src : SourceStore) (tgt : TargetStore)
    (source_host : String) (source_port : Nat) (target_host : String)
    (target_port : Nat) (batch_size size_limit : Nat) (large_key_file : String)
    (fuel : Nat)
    (h : (migrate_redis_keys src tgt source_host source_port target_host
            target_port batch_size size_limit large_key_file fuel).aborted
          = false) :
    (migrate_redis_keys src tgt source_host source_port target_host
        target_port batch_size size_limit large_key_file fuel).scanned =
      (migrate_redis_keys src tgt source_host source_port target_host
          target_port batch_size size_limit large_key_file fuel).applied.length
      + (migrate_redis_keys src tgt source_host source_port target_host
          target_port batch_size size_limit large_key_file
          fuel).large_keys.length
      + ((migrate_redis_keys src tgt source_host source_port target_host
          target_port batch_size size_limit large_key_file fuel).events.filter
            isErrorMigrating).length := by
  unfold migrate_redis_keys at h ⊢
  cases hab : (scanLoop src tgt size_limit batch_size fuel 0
      { scanned := 0, applied := [], large_keys := []
        events := [.connectedSource source_host source_port,
                   .connectedTarget target_host target_port,
                   .foundKeys src.dbsize]
        aborted := none }).aborted with
  | some e => simp [hab] at h
  | none =>
    simp only [hab]
    have hinv := scanLoop_partition src tgt size_limit batch_size fuel 0
      { scanned := 0, applied := [], large_keys := []
        events := [.connectedSource source_host source_port,
                   .connectedTarget target_host target_port,
                   .foundKeys src.dbsize]
        aborted := none }
      (by simp [countsOk, isErrorMigrating]) hab
    unfold countsOk at hinv
    simp only [List.filter_append, List.length_append,
      process_large_keys_events_filter]
    simp [isErrorMigrating, hinv]

/-- C3 witness: the scenario run scans three keys, applies two writes,
defers one key and prints no per-key failure. -/
theorem c3_every_key_classified_witness :
    (migrate_redis_keys srcScenario tgtAccept "source-host" 6379 "target-host"
        6380 1000 10485760 "large_keys.txt" 5).scanned =
      (migrate_redis_keys srcScenario tgtAccept "source-host" 6379
          "target-host" 6380 1000 10485760 "large_keys.txt"
          5).applied.length
      + (migrate_redis_keys srcScenario tgtAccept "source-host" 6379
          "target-host" 6380 1000 10485760 "large_keys.txt"
          5).large_keys.length
      + ((migrate_redis_keys srcScenario tgtAccept "source-host" 6379
          "target-host" 6380 1000 10485760 "large_keys.txt" 5).events.filter
            isErrorMigrating).length :=
  c3_every_key_classified srcScenario tgtAccept "source-host" 6379
    "target-host" 6380 1000 10485760 "large_keys.txt" 5 (by decide)

end Migrate
